import Mathlib

/-!
Shallow embedding of `src/main.py` (a minimal FastAPI service with two
endpoints, dual-sink logging and OTLP tracing) and proofs of the claims of the spec
 about it.
-/

namespace ApiBackend

/-- HTTP methods relevant to the service. -/
inductive Method where
  | GET
  | POST
  | OPTIONS
  | HEAD
  deriving DecidableEq, Repr

/-- An inbound HTTP request: method, path, query parameters and headers.
The two handlers ignore query parameters and headers entirely. -/
structure Request where
  method : Method
  path : String
  query : List (String × String)
  headers : List (String × String)
  deriving DecidableEq, Repr

/-- An HTTP response. Both endpoint bodies are one-key JSON objects with a
string value, so the JSON body is modelled as an association list. -/
structure Response where
  status : Nat
  body : List (String × String)
  headers : List (String × String)
  deriving DecidableEq, Repr

/-- Python log levels used by `logging.basicConfig(level=logging.INFO, ...)`. -/
inductive LogLevel where
  | DEBUG
  | INFO
  | WARNING
  | ERROR
  deriving DecidableEq, Repr

/-- Numeric value of a log level, as in the Python `logging` module. -/
def LogLevel.toNat : LogLevel → Nat
  | .DEBUG => 10
  | .INFO => 20
  | .WARNING => 30
  | .ERROR => 40

/-- Rendered name of a log level (`%(levelname)s`). -/
def LogLevel.name : LogLevel → String
  | .DEBUG => "DEBUG"
  | .INFO => "INFO"
  | .WARNING => "WARNING"
  | .ERROR => "ERROR"

/-- A log record as produced by `logger.info(msg, extra=...)`: level, message
and the extra attributes attached to the record. -/
structure LogRecord where
  level : LogLevel
  msg : String
  extra : List (String × String)
  deriving DecidableEq, Repr

/-- The process environment, as an association list of variables. -/
def Env := List (String × String)

/-- `os.getenv(key, default)` (src/main.py line 15). -/
def getenv (env : Env) (key dflt : String) : String :=
  match List.lookup key env with
  | some v => v
  | none => dflt

/-- `VERSION = os.getenv("API_VERSION", "dev")` (src/main.py line 15),
evaluated once at module import. -/
def startupVersion (env : Env) : String :=
  getenv env "API_VERSION" "dev"

/-- Immutable process-wide configuration fixed at startup. -/
structure Config where
  version : String
  deriving DecidableEq, Repr

/-- The configuration the module-level code computes from the startup
environment. -/
def startupCfg (env : Env) : Config :=
  ⟨startupVersion env⟩

/-- `health_check` (src/main.py lines 55-58): logs one INFO line and returns
`{"status": "ok"}`. -/
def health_check : Response × List LogRecord :=
  (⟨200, [("status", "ok")], []⟩, [⟨.INFO, "/health called", []⟩])

/-- `version` (src/main.py lines 61-64): logs one INFO line with the version
attached via `extra`, and returns `{"version": VERSION}`. -/
def version (cfg : Config) : Response × List LogRecord :=
  (⟨200, [("version", cfg.version)], []⟩,
   [⟨.INFO, "/version called", [("version", cfg.version)]⟩])

/-- FastAPI route dispatch for the two registered routes
(`@app.get("/health")`, `@app.get("/version")`); other (method, path) pairs
fall through to the framework and are outside the scope of the handlers. -/
def route (cfg : Config) (req : Request) : Option (Response × List LogRecord) :=
  match req.method, req.path with
  | .GET, "/health" => some health_check
  | .GET, "/version" => some (version cfg)
  | _, _ => none

/-- Modelled from the spec: the CORS layer is the Starlette `CORSMiddleware`
(third-party, not part of this repository); src/main.py lines 46-52 only
configure it with `allow_origins=["*"]`, `allow_credentials=True`,
`allow_methods=["*"]`, `allow_headers=["*"]`. The spec says it applies
"CORS headers permitting any origin, credential mode enabled, any method,
any header — on every response, including preflight (`OPTIONS`) requests,
before dispatching to handlers". These are the headers it applies. -/
def corsHeaders : List (String × String) :=
  [("Access-Control-Allow-Origin", "*"),
   ("Access-Control-Allow-Credentials", "true"),
   ("Access-Control-Allow-Methods", "*"),
   ("Access-Control-Allow-Headers", "*")]

/-- Attach the CORS headers to a response. -/
def corsWrap (r : Response) : Response :=
  { r with headers := corsHeaders ++ r.headers }

/-- Modelled from the spec: the whole HTTP shell. An `OPTIONS` request on any
path is answered by the CORS middleware itself (a preflight response carrying
the CORS headers); every other request is dispatched to the routes and its
response carries the CORS headers as well. -/
def appRespond (cfg : Config) (req : Request) : Option Response :=
  if req.method = .OPTIONS then
    some (corsWrap ⟨200, [], []⟩)
  else
    (route cfg req).map (fun p => corsWrap p.1)

/-- The log records emitted while handling a request (empty when the request
matches no route). -/
def requestLogs (cfg : Config) (req : Request) : List LogRecord :=
  match route cfg req with
  | some p => p.2
  | none => []

/-- The two log sinks configured by `logging.basicConfig` (src/main.py
lines 25-32): a `StreamHandler` (console) and a `FileHandler` (log file).
Each sink is the list of lines written to it so far. -/
structure Sinks where
  console : List String
  file : List String
  deriving DecidableEq, Repr

/-- Render a record with the configured format
`"%(asctime)s %(levelname)s [api-backend] %(message)s"` (src/main.py
line 27). `asctime` is the timestamp the logging module substitutes. -/
def renderLine (asctime : String) (rec : LogRecord) : String :=
  asctime ++ " " ++ rec.level.name ++ " [api-backend] " ++ rec.msg

/-- Write one line to both sinks, as the two handlers of the root logger do. -/
def emitBoth (s : Sinks) (line : String) : Sinks :=
  ⟨s.console ++ [line], s.file ++ [line]⟩

/-- Dispatch one record through the root logger: records at INFO (20) or
above pass the `level=logging.INFO` threshold and are written to both
handlers; records below it are discarded. -/
def logDispatch (asctime : String) (s : Sinks) (rec : LogRecord) : Sinks :=
  if LogLevel.toNat .INFO ≤ rec.level.toNat then
    emitBoth s (renderLine asctime rec)
  else
    s

/-- Run a list of records through the configured logging, in order. -/
def runSinks (asctime : String) (s : Sinks) (recs : List LogRecord) : Sinks :=
  recs.foldl (logDispatch asctime) s

/-- Outcomes of the two fallible filesystem operations the module-level code
performs: `log_dir.mkdir(exist_ok=True)` (line 22) and the `FileHandler`
opening `logs/api-backend.log` for append (line 30). -/
structure FS where
  mkdirOk : Bool
  openOk : Bool
  deriving DecidableEq, Repr

/-- Startup failures: either filesystem operation raising. -/
inductive StartupError where
  | mkdirFailed
  | fileOpenFailed
  deriving DecidableEq, Repr

/-- The module-level startup sequence (src/main.py lines 15-33): read
`VERSION`, create the log directory, open the log file. The code wraps
neither operation in `try`/`except`, so an exception propagates out of the
module import and the process terminates: the embedding returns `.error`. -/
def startup (fs : FS) (env : Env) : Except StartupError Config :=
  if fs.mkdirOk then
    if fs.openOk then .ok (startupCfg env)
    else .error .fileOpenFailed
  else .error .mkdirFailed

/-- The tracing resource descriptor (src/main.py line 36):
`Resource(attributes={"service.name": "api-backend", "service.version": VERSION})`. -/
def resourceAttributes (cfg : Config) : List (String × String) :=
  [("service.name", "api-backend"), ("service.version", cfg.version)]

/-- Whether the OTLP collector at the configured endpoint is reachable. -/
inductive Collector where
  | reachable
  | unreachable
  deriving DecidableEq, Repr

/-- Modelled from the spec: the `BatchSpanProcessor`/`OTLPSpanExporter` pair
(third-party OpenTelemetry SDK code, not part of this repository;
src/main.py lines 38-42 only construct and register them). Per the spec,
"if the exporter cannot reach the collector, spans are dropped after
retry/backoff internal to the batching exporter". The export result: the
buffered spans delivered when the collector is reachable, nothing (all
dropped) when it is not. -/
def batchExport (c : Collector) (spans : List String) : List String :=
  match c with
  | .reachable => spans
  | .unreachable => []

/-- Modelled from the spec: span export is asynchronous and fire-and-forget
("this must never block or fail request handling"), so the response produced
for a request is computed by the routing and handlers alone and does not
depend on the collector. -/
def pipelineRespond (cfg : Config) (req : Request) (_c : Collector) :
    Option Response :=
  appRespond cfg req

/-- Does `needle` occur as an initial segment of `hay`? -/
def leadMatch : List Char → List Char → Bool
  | [], _ => true
  | _ :: _, [] => false
  | c :: cs, d :: ds => c = d && leadMatch cs ds

/-- Does `needle` occur as a contiguous run anywhere in `hay`? -/
def findSub (needle : List Char) : List Char → Bool
  | [] => leadMatch needle []
  | d :: ds => leadMatch needle (d :: ds) || findSub needle ds

/-- Does string `hay` contain string `needle` as a substring? -/
def strContains (hay needle : String) : Bool :=
  findSub needle.data hay.data

/-- Does a response carry the four permissive CORS headers (`*` origin,
credentials enabled, any method, any header)? -/
def hasCors (r : Response) : Bool :=
  (List.lookup "Access-Control-Allow-Origin" r.headers == some "*") &&
  (List.lookup "Access-Control-Allow-Credentials" r.headers == some "true") &&
  (List.lookup "Access-Control-Allow-Methods" r.headers == some "*") &&
  (List.lookup "Access-Control-Allow-Headers" r.headers == some "*")

/-- Is a startup outcome fatal (the module import raised)? -/
def startupFatal (r : Except StartupError Config) : Bool :=
  match r with
  | .ok _ => false
  | .error _ => true

/-- The response to `GET /version` during a process run. `startupEnv` is the
process environment when the module was imported (line 15 reads
`API_VERSION` then); `_currentEnv` is the process environment at request
time. The handler body (src/main.py lines 61-64) references the module-level
constant `VERSION` and never calls `os.getenv`, so the request-time
environment is unused. -/
def versionRunResponse (startupEnv _currentEnv : Env) : Option Response :=
  appRespond (startupCfg startupEnv) ⟨.GET, "/version", [], []⟩

end ApiBackend

namespace ApiBackend

/-- Claim C1: for every GET request to `/health`, regardless of query
parameters or headers (and of the environment), the handler returns the JSON
body `{"status": "ok"}` with HTTP status 200. -/
theorem c1_health_returns_ok (env : Env) (q hdrs : List (String × String)) :
    ∃ r, appRespond (startupCfg env) ⟨.GET, "/health", q, hdrs⟩ = some r ∧
      r.status = 200 ∧ r.body = [("status", "ok")] :=
  ⟨_, rfl, rfl, rfl⟩

/-- Claim C2: for every startup environment, every GET request to `/version`
returns HTTP 200 with JSON body `{"version": v}` where `v` is the value of
`API_VERSION` in that environment, or exactly "dev" when it is unset. -/
theorem c2_version_reflects_env (env : Env) (q hdrs : List (String × String)) :
    ∃ r, appRespond (startupCfg env) ⟨.GET, "/version", q, hdrs⟩ = some r ∧
      r.status = 200 ∧
      r.body = [("version", (List.lookup "API_VERSION" env).getD "dev")] := by
  refine ⟨_, rfl, rfl, ?_⟩
  show [("version", startupVersion env)] = _
  unfold startupVersion getenv
  cases List.lookup "API_VERSION" env <;> rfl

/-- Claim C3: every response the service sends carries the permissive CORS
headers (origin `*`, credentials enabled, any method, any header), and an
`OPTIONS` preflight request on any path is answered with a response carrying
them as well. -/
theorem c3_cors_on_every_response (cfg : Config) (req : Request) :
    (∀ r, appRespond cfg req = some r → hasCors r = true) ∧
    (req.method = .OPTIONS →
      ∃ r, appRespond cfg req = some r ∧ hasCors r = true) := by
  constructor
  · intro r h
    unfold appRespond at h
    split at h
    · cases h
      rfl
    · rcases hr : route cfg req with _ | p
      · rw [hr] at h
        simp at h
      · rw [hr] at h
        have hh : corsWrap p.1 = r := by simpa using h
        rw [← hh]
        rfl
  · intro hm
    refine ⟨corsWrap ⟨200, [], []⟩, ?_, rfl⟩
    unfold appRespond
    rw [if_pos hm]

/-- Claim C3 witness: the preflight response for `OPTIONS /any` exists and
carries the CORS headers. -/
theorem c3_cors_on_every_response_witness :
    hasCors (corsWrap ⟨200, [], []⟩) = true ∧
    appRespond ⟨"dev"⟩ ⟨.OPTIONS, "/any", [], []⟩ = some (corsWrap ⟨200, [], []⟩) :=
  ⟨(c3_cors_on_every_response ⟨"dev"⟩ ⟨.OPTIONS, "/any", [], []⟩).1
      (corsWrap ⟨200, [], []⟩) rfl,
   rfl⟩

/-- Claim C4 counterexample: with `API_VERSION` unset the resolved version is
"dev", and the GET `/version` handler emits exactly one record whose message
is the fixed string "/version called"; neither that message nor the full
rendered log line contains the resolved version "dev", so the rendered
message text does not include the resolved version string. -/
theorem c4_rendered_line_lacks_version :
    requestLogs (startupCfg []) ⟨.GET, "/version", [], []⟩ =
      [⟨.INFO, "/version called", [("version", "dev")]⟩] ∧
    strContains "/version called" "dev" = false ∧
    strContains (renderLine "2026-01-01 00:00:00,000"
      ⟨.INFO, "/version called", [("version", "dev")]⟩) "dev" = false :=
  ⟨rfl, rfl, rfl⟩

/-- Claim C4 (amended): for every GET request to `/version`, the handler
emits exactly one log record at INFO level; its message is the fixed string
"/version called" and the resolved version string is attached to the record
only as the extra attribute `version`, not in the rendered message text. -/
theorem c4_version_log_record_amended (env : Env)
    (q hdrs : List (String × String)) :
    requestLogs (startupCfg env) ⟨.GET, "/version", q, hdrs⟩ =
      [⟨.INFO, "/version called", [("version", startupVersion env)]⟩] :=
  rfl

/-- Claim C5: a request to `/health` or `/version` emits exactly one INFO
record, and running it through the configured logging appends exactly one
line, the same line, to both the console sink and the file sink. -/
theorem c5_one_info_line_both_sinks (env : Env) (asctime : String) (s : Sinks)
    (q hdrs : List (String × String)) :
    (requestLogs (startupCfg env) ⟨.GET, "/health", q, hdrs⟩).length = 1 ∧
    (requestLogs (startupCfg env) ⟨.GET, "/version", q, hdrs⟩).length = 1 ∧
    runSinks asctime s (requestLogs (startupCfg env) ⟨.GET, "/health", q, hdrs⟩) =
      ⟨s.console ++ [renderLine asctime ⟨.INFO, "/health called", []⟩],
       s.file ++ [renderLine asctime ⟨.INFO, "/health called", []⟩]⟩ ∧
    runSinks asctime s (requestLogs (startupCfg env) ⟨.GET, "/version", q, hdrs⟩) =
      ⟨s.console ++
         [renderLine asctime
           ⟨.INFO, "/version called", [("version", startupVersion env)]⟩],
       s.file ++
         [renderLine asctime
           ⟨.INFO, "/version called", [("version", startupVersion env)]⟩]⟩ :=
  ⟨rfl, rfl, rfl, rfl⟩

/-- Claim C6: the version string is fixed at startup. Changing the
environment during the run never changes the `/version` response, while two
startups whose resolved versions differ give different `/version` responses. -/
theorem c6_version_fixed_at_startup :
    (∀ e c c', versionRunResponse e c = versionRunResponse e c') ∧
    (∀ e e' c, startupVersion e ≠ startupVersion e' →
      versionRunResponse e c ≠ versionRunResponse e' c) := by
  constructor
  · intro e c c'
    rfl
  · intro e e' c h heq
    apply h
    simpa [versionRunResponse, appRespond, route, version, corsWrap,
      startupCfg] using heq

/-- Claim C6 witness: restarting with `API_VERSION=1.2.3` instead of an
empty environment changes the `/version` response. -/
theorem c6_version_fixed_at_startup_witness :
    versionRunResponse [("API_VERSION", "1.2.3")] [] ≠ versionRunResponse [] [] :=
  c6_version_fixed_at_startup.2 [("API_VERSION", "1.2.3")] [] [] (by decide)

/-- Claim C7: startup is fatal exactly when the log directory cannot be
created or the log file cannot be opened; when both succeed the process
starts, so there is no silent fallback on either side. -/
theorem c7_log_setup_failure_fatal (fs : FS) (env : Env) :
    startupFatal (startup fs env) = (!fs.mkdirOk || !fs.openOk) := by
  rcases fs with ⟨m, o⟩
  cases m <;> cases o <;> rfl

/-- Claim C8: when the collector is unreachable the batching exporter drops
all buffered spans, and the response produced for any request is the same
whatever the collector state is, so tracing failures never change the HTTP
status or body. -/
theorem c8_tracing_fire_and_forget (cfg : Config) (req : Request)
    (spans : List String) (c c' : Collector) :
    batchExport .unreachable spans = [] ∧
    pipelineRespond cfg req c = pipelineRespond cfg req c' :=
  ⟨rfl, rfl⟩

/-- Claim C9: for every startup environment, the `service.version` attribute
of the tracing resource descriptor equals the version string in the body of
the `/version` response. -/
theorem c9_resource_version_matches_endpoint (env : Env)
    (q hdrs : List (String × String)) :
    ∃ r v, appRespond (startupCfg env) ⟨.GET, "/version", q, hdrs⟩ = some r ∧
      r.body = [("version", v)] ∧
      List.lookup "service.version" (resourceAttributes (startupCfg env)) =
        some v :=
  ⟨_, startupVersion env, rfl, rfl, rfl⟩

/-- Claim C10: the handlers are deterministic in the startup environment:
two runs whose environments agree on `API_VERSION` (both set to the same
value, or both unset) answer every request identically. -/
theorem c10_deterministic_in_api_version (e1 e2 : Env) (req : Request)
    (h : List.lookup "API_VERSION" e1 = List.lookup "API_VERSION" e2) :
    appRespond (startupCfg e1) req = appRespond (startupCfg e2) req := by
  have hc : startupCfg e1 = startupCfg e2 := by
    simp [startupCfg, startupVersion, getenv, h]
  rw [hc]

/-- Claim C10 witness: two environments agreeing on `API_VERSION` but
differing elsewhere answer `GET /version` identically. -/
theorem c10_deterministic_in_api_version_witness :
    appRespond (startupCfg [("API_VERSION", "1.2.3")])
        ⟨.GET, "/version", [], []⟩ =
      appRespond (startupCfg [("API_VERSION", "1.2.3"), ("HOME", "/root")])
        ⟨.GET, "/version", [], []⟩ :=
  c10_deterministic_in_api_version [("API_VERSION", "1.2.3")]
    [("API_VERSION", "1.2.3"), ("HOME", "/root")]
    ⟨.GET, "/version", [], []⟩ rfl

end ApiBackend
